import Mathlib

/-!
Shallow embedding of `src/index.ts` of Digital-Defiance/vscode-shared-status-bar.

The module keeps process-global mutable state (a status-bar item, a set of
active extension ids, several command disposables, an output channel and a
last-error slot).  We model that state as an explicit `SharedState` record and
every exported operation as a pure state transformer.  Host interactions that
can fail (vscode `registerCommand`, `createStatusBarItem`, `show`, `hide`,
`dispose` on handles, `executeCommand`) are resolved by explicit outcome
parameters (`HostEnv`, `RegisterEnv`, ...): one Boolean / constructor per
try/catch site of the source.  Ghost counters (`createCalls`, `updateCalls`,
`diagRegisterAttempts`) count invocations of `vscode.window.createStatusBarItem`,
of `updateStatusBar`, and of the `mcp-acs.diagnostics` `registerCommand`
attempt; they instrument the embedding and are touched exactly at the
corresponding call sites of the source.
-/

/-- Alignment argument of `createStatusBarItem` (`vscode.StatusBarAlignment`). -/
inductive StatusBarAlignment
  | left
  | right
deriving DecidableEq

/-- Model of a `vscode.StatusBarItem`: the fields the source reads or writes,
plus `visible`, the host-side shown/hidden state toggled by `show()`/`hide()`. -/
structure StatusBarItem where
  itemId : String
  alignment : StatusBarAlignment
  priority : Nat
  text : String
  tooltip : String
  command : Option String
  visible : Bool
deriving DecidableEq

/-- Outcome of a `vscode.window.createStatusBarItem` call: normal return,
an exception, or the `undefined` return the source defends against. -/
inductive CreateResult
  | ok
  | threw
  | returnedUndefined
deriving DecidableEq

/-- Outcomes of the host calls made by `internalRegister`, `updateStatusBar`
and `internalUnregister`; one flag per try/catch site of the source. -/
structure HostEnv where
  registerShowMenuThrows : Bool
  createResult : CreateResult
  showThrows : Bool
  hideThrows : Bool
  disposeShowMenuThrows : Bool
  disposeRegisterEndpointThrows : Bool
  disposeUnregisterEndpointThrows : Bool
deriving DecidableEq

/-- Outcomes of the host calls made by `registerExtension` around
`internalRegister`: the initial `executeCommand("mcp-acs.registerExtension")`
forwarding invoke, the two `registerCommand` endpoint registrations, and the
one-shot retry of the forwarding invoke. -/
structure RegisterEnv where
  ownerInvokeSucceeds : Bool
  host : HostEnv
  registerEndpointThrows : Bool
  retryInvokeSucceeds : Bool
  unregisterEndpointThrows : Bool
deriving DecidableEq

/-- Outcomes of the forwarding invoke made by `unregisterExtension`. -/
structure UnregisterEnv where
  ownerInvokeSucceeds : Bool
  host : HostEnv
deriving DecidableEq

/-- Outcomes of the three guarded disposals inside `dispose()`. -/
structure DisposeEnv where
  disposeShowMenuThrows : Bool
  disposeDiagnosticThrows : Bool
  disposeStatusBarThrows : Bool
deriving DecidableEq

/-- The module-level mutable state of `src/index.ts`.  Disposables are modelled
by whether they are currently held; the output channel by its name.  The three
`Nat` fields are ghost instrumentation counters (see the module docstring). -/
structure SharedState where
  statusBarItem : Option StatusBarItem
  activeExtensions : Finset String
  commandDisposable : Bool
  registerCommandDisposable : Bool
  unregisterCommandDisposable : Bool
  diagnosticCommandDisposable : Bool
  outputChannel : Option String
  lastError : Option String
  createCalls : Nat
  updateCalls : Nat
  diagRegisterAttempts : Nat
deriving DecidableEq

/-- The state at module load: everything undefined / empty / null. -/
def initialState : SharedState :=
  { statusBarItem := none
    activeExtensions := ∅
    commandDisposable := false
    registerCommandDisposable := false
    unregisterCommandDisposable := false
    diagnosticCommandDisposable := false
    outputChannel := none
    lastError := none
    createCalls := 0
    updateCalls := 0
    diagRegisterAttempts := 0 }

/-- Host environment in which no host call throws and creation succeeds. -/
def faultFree : HostEnv :=
  { registerShowMenuThrows := false
    createResult := CreateResult.ok
    showThrows := false
    hideThrows := false
    disposeShowMenuThrows := false
    disposeRegisterEndpointThrows := false
    disposeUnregisterEndpointThrows := false }

/-- Dispose environment in which no sub-disposal throws. -/
def faultFreeDispose : DisposeEnv :=
  { disposeShowMenuThrows := false
    disposeDiagnosticThrows := false
    disposeStatusBarThrows := false }

/-- The item returned by `vscode.window.createStatusBarItem("mcp-acs.shared-status",
Right, 100)`: not yet shown, no command bound. -/
def freshStatusBarItem : StatusBarItem :=
  { itemId := "mcp-acs.shared-status"
    alignment := StatusBarAlignment.right
    priority := 100
    text := ""
    tooltip := ""
    command := none
    visible := false }

/-- Tail of `updateStatusBar` for a non-empty registry: set `text` and
`tooltip` on the current item, then call `show()` (which may throw; on a throw
`logError` records the failure and the host visibility is unchanged). -/
def showStatusBar (env : HostEnv) (s : SharedState) : SharedState :=
  match s.statusBarItem with
  | some item =>
      let item1 : StatusBarItem :=
        { item with
            text := "$(layers) ACS"
            tooltip := "ACS Extensions (" ++ toString s.activeExtensions.card ++ " active)" }
      if env.showThrows = true then
        { s with statusBarItem := some item1
                 lastError := some "Failed to show status bar item:" }
      else
        { s with statusBarItem := some { item1 with visible := true } }
  | none => s

/-- Embedding of `updateStatusBar()` (src/index.ts lines 502-570).  When the
registry is empty the item, if any, is hidden (never destroyed); otherwise the
item is created once if absent (with the defensive undefined check and the
catch around creation) and then updated and shown. -/
def updateStatusBar (env : HostEnv) (s0 : SharedState) : SharedState :=
  let s : SharedState := { s0 with updateCalls := s0.updateCalls + 1 }
  if s.activeExtensions.card = 0 then
    match s.statusBarItem with
    | some item =>
        if env.hideThrows = true then
          { s with lastError := some "Failed to hide status bar item:" }
        else
          { s with statusBarItem := some { item with visible := false } }
    | none => s
  else
    match s.statusBarItem with
    | none =>
        let s1 : SharedState := { s with createCalls := s.createCalls + 1 }
        match env.createResult with
        | CreateResult.threw =>
            { s1 with lastError := some "Failed to create status bar item:" }
        | CreateResult.returnedUndefined =>
            { s1 with lastError := some "Status bar item creation returned undefined" }
        | CreateResult.ok =>
            let item : StatusBarItem :=
              if s1.commandDisposable = true then
                { freshStatusBarItem with command := some "mcp-acs.showMenu" }
              else freshStatusBarItem
            showStatusBar env { s1 with statusBarItem := some item }
    | some _ => showStatusBar env s

/-- Embedding of `internalRegister(extensionId)` (src/index.ts lines 253-295):
add to the set, register `mcp-acs.showMenu` on the first registration, and run
`updateStatusBar` only when the cardinality actually changed. -/
def internalRegister (env : HostEnv) (extensionId : String) (s : SharedState) : SharedState :=
  let wasEmpty : Prop := s.activeExtensions.card = 0
  let previousSize : Nat := s.activeExtensions.card
  let s1 : SharedState := { s with activeExtensions := insert extensionId s.activeExtensions }
  let countChanged : Prop := s1.activeExtensions.card ≠ previousSize
  let s2 : SharedState :=
    if wasEmpty ∧ 0 < s1.activeExtensions.card then
      if env.registerShowMenuThrows = true then
        { s1 with lastError := some "Failed to register mcp-acs.showMenu command:" }
      else
        let s' : SharedState := { s1 with commandDisposable := true }
        match s'.statusBarItem with
        | some item =>
            { s' with statusBarItem := some { item with command := some "mcp-acs.showMenu" } }
        | none => s'
    else s1
  if countChanged then updateStatusBar env s2 else s2

/-- Embedding of `internalUnregister(extensionId)` (src/index.ts lines
329-379): early return on an unknown id; otherwise remove it, dispose the
show-menu command and both relay endpoints when the registry became empty
(each disposal guarded by its own try/catch that leaves the handle set when
the disposal throws), then run `updateStatusBar`. -/
def internalUnregister (env : HostEnv) (extensionId : String) (s : SharedState) : SharedState :=
  if extensionId ∈ s.activeExtensions then
    let s1 : SharedState := { s with activeExtensions := s.activeExtensions.erase extensionId }
    let s2 : SharedState :=
      if s1.activeExtensions.card = 0 ∧ s1.commandDisposable = true then
        if env.disposeShowMenuThrows = true then
          { s1 with lastError := some "Failed to dispose mcp-acs.showMenu command:" }
        else { s1 with commandDisposable := false }
      else s1
    let s3 : SharedState :=
      if s2.activeExtensions.card = 0 ∧ s2.registerCommandDisposable = true then
        if env.disposeRegisterEndpointThrows = true then
          { s2 with lastError := some "Failed to dispose mcp-acs.registerExtension command:" }
        else { s2 with registerCommandDisposable := false }
      else s2
    let s4 : SharedState :=
      if s3.activeExtensions.card = 0 ∧ s3.unregisterCommandDisposable = true then
        if env.disposeUnregisterEndpointThrows = true then
          { s3 with lastError := some "Failed to dispose mcp-acs.unregisterExtension command:" }
        else { s3 with unregisterCommandDisposable := false }
      else s3
    updateStatusBar env s4
  else s

/-- Helper of `registerExtension`: the attempt to register the
`mcp-acs.unregisterExtension` relay endpoint (src/index.ts lines 234-250). -/
def registerUnregisterEndpoint (env : RegisterEnv) (s : SharedState) : SharedState :=
  if s.unregisterCommandDisposable = true then s
  else if env.unregisterEndpointThrows = true then
    { s with lastError := some "Failed to register mcp-acs.unregisterExtension command:" }
  else { s with unregisterCommandDisposable := true }

/-- Embedding of `registerExtension(extensionId)` (src/index.ts lines
185-251): forward to an existing owner when the invoke succeeds; otherwise
self-promote — `internalRegister` first, then attempt to register the two
relay endpoints, with a one-shot retry of the forwarding invoke when the
first endpoint registration throws. -/
def registerExtension (env : RegisterEnv) (extensionId : String) (s : SharedState) : SharedState :=
  if env.ownerInvokeSucceeds = true then s
  else
    let s1 : SharedState := internalRegister env.host extensionId s
    if s1.registerCommandDisposable = true then
      registerUnregisterEndpoint env s1
    else if env.registerEndpointThrows = false then
      registerUnregisterEndpoint env { s1 with registerCommandDisposable := true }
    else
      let s2 : SharedState :=
        { s1 with lastError := some "Failed to register mcp-acs.registerExtension command:" }
      if env.retryInvokeSucceeds = true then s2
      else registerUnregisterEndpoint env s2

/-- Embedding of `unregisterExtension(extensionId)` (src/index.ts lines
316-327): forward to the owner; on failure, unregister locally. -/
def unregisterExtension (env : UnregisterEnv) (extensionId : String) (s : SharedState) : SharedState :=
  if env.ownerInvokeSucceeds = true then s
  else internalUnregister env.host extensionId s

/-- Embedding of `dispose()` (src/index.ts lines 589-635): three isolated
guarded disposals (show-menu command, diagnostic command, status-bar item;
on a throw the handle is left set), then the unconditional clearing of the
registry, the last error and the output channel.  The two relay-endpoint
disposables are never touched here. -/
def dispose (env : DisposeEnv) (s : SharedState) : SharedState :=
  let s1 : SharedState :=
    if s.commandDisposable = true ∧ env.disposeShowMenuThrows = true then
      { s with lastError := some "Failed to dispose command:" }
    else { s with commandDisposable := false }
  let s2 : SharedState :=
    if s1.diagnosticCommandDisposable = true ∧ env.disposeDiagnosticThrows = true then
      { s1 with lastError := some "Failed to dispose diagnostic command:" }
    else { s1 with diagnosticCommandDisposable := false }
  let s3 : SharedState :=
    if s2.statusBarItem.isSome = true ∧ env.disposeStatusBarThrows = true then
      { s2 with lastError := some "Failed to dispose status bar item:" }
    else { s2 with statusBarItem := none }
  { s3 with activeExtensions := ∅, lastError := none, outputChannel := none }

/-- Embedding of `setOutputChannel(channel)` (src/index.ts lines 134-156):
first caller wins; the first successful call attempts the
`mcp-acs.diagnostics` `registerCommand` once (diagRegisterAttempts counts
that attempt). -/
def setOutputChannel (diagRegisterThrows : Bool) (channel : String) (s : SharedState) :
    SharedState :=
  if s.outputChannel.isSome = true then s
  else
    let s1 : SharedState := { s with outputChannel := some channel }
    if s1.diagnosticCommandDisposable = true then s1
    else
      let s2 : SharedState := { s1 with diagRegisterAttempts := s1.diagRegisterAttempts + 1 }
      if diagRegisterThrows = true then
        { s2 with lastError := some "Failed to register mcp-acs.diagnostics command:" }
      else { s2 with diagnosticCommandDisposable := true }

/-- Embedding of the `DiagnosticInfo` record (src/index.ts lines 677-698). -/
structure DiagnosticInfo where
  activeExtensionCount : Nat
  registeredExtensions : Finset String
  statusBarExists : Bool
  statusBarVisible : Bool
  commandRegistered : Bool
  registerCommandRegistered : Bool
  lastError : Option String
deriving DecidableEq

/-- Embedding of `getDiagnosticInfo()` (src/index.ts lines 717-727). -/
def getDiagnosticInfo (s : SharedState) : DiagnosticInfo :=
  { activeExtensionCount := s.activeExtensions.card
    registeredExtensions := s.activeExtensions
    statusBarExists := s.statusBarItem.isSome
    statusBarVisible := s.statusBarItem.isSome && decide (0 < s.activeExtensions.card)
    commandRegistered := s.commandDisposable
    registerCommandRegistered := s.registerCommandDisposable
    lastError := s.lastError }

/-- One owner-side registry event: a call of `internalRegister` or of
`internalUnregister` (directly or through the relay handlers, which call the
same functions). -/
inductive RegEvent
  | reg (id : String)
  | unreg (id : String)
deriving DecidableEq

/-- The client identifier carried by an event. -/
def eventId : RegEvent → String
  | RegEvent.reg i => i
  | RegEvent.unreg i => i

/-- Apply one event under its host environment. -/
def applyEvent (s : SharedState) : HostEnv × RegEvent → SharedState
  | (env, RegEvent.reg i) => internalRegister env i s
  | (env, RegEvent.unreg i) => internalUnregister env i s

/-- Run a finite sequence of registry events from a given state. -/
def runEvents (s : SharedState) (l : List (HostEnv × RegEvent)) : SharedState :=
  l.foldl applyEvent s

/-- Apply one event under the fault-free host environment. -/
def applyEventFF (s : SharedState) (e : RegEvent) : SharedState :=
  match e with
  | RegEvent.reg i => internalRegister faultFree i s
  | RegEvent.unreg i => internalUnregister faultFree i s

/-- Run a fault-free event sequence from the initial state. -/
def runEventsFF (l : List RegEvent) : SharedState :=
  l.foldl applyEventFF initialState

/-- Per-identifier trace semantics: the registration status of `id` after one
more event, given its status `b` so far. -/
def activeStep (id : String) (b : Bool) : RegEvent → Bool
  | RegEvent.reg i => if i = id then true else b
  | RegEvent.unreg i => if i = id then false else b

/-- Registration status of `id` after an event sequence, starting from
status `b`. -/
def activeFrom (b : Bool) (l : List RegEvent) (id : String) : Bool :=
  l.foldl (activeStep id) b

/-- Whether `id` has been registered and not subsequently unregistered along
the event sequence (the spec's description of final membership). -/
def activeAfter (l : List RegEvent) (id : String) : Bool :=
  activeFrom false l id

/-- All identifiers mentioned by an event sequence. -/
def mentionedIds (l : List RegEvent) : Finset String :=
  (l.map eventId).toFinset

/-- The set the spec describes: distinct identifiers that have been registered
and not subsequently unregistered. -/
def registeredNotUnregistered (l : List RegEvent) : Finset String :=
  (mentionedIds l).filter (fun id => activeAfter l id = true)

/-- Environment of a self-promoting, fully successful `registerExtension`. -/
def ownerEnv : RegisterEnv :=
  { ownerInvokeSucceeds := false
    host := faultFree
    registerEndpointThrows := false
    retryInvokeSucceeds := false
    unregisterEndpointThrows := false }

/-- State of an instance that self-promoted to owner for client "ext-a" with a
fault-free host: registry "ext-a", all commands registered, item shown. -/
def ownerState : SharedState :=
  registerExtension ownerEnv "ext-a" initialState

/-- Host environment in which only `show()` throws. -/
def showFailEnv : HostEnv :=
  { faultFree with showThrows := true }

/-- State after a first registration during which the `show()` call threw:
the item exists and the registry is non-empty, but the host never displayed
the item. -/
def showFailState : SharedState :=
  internalRegister showFailEnv "ext-a" initialState

/-- Indicator-singleton invariant maintained by fault-free register/unregister
events: the creation capability was invoked at most once, it was invoked
exactly when the item exists, the item is hidden whenever the registry is
empty, and the item exists whenever the registry is non-empty. -/
def IndicatorInv (s : SharedState) : Prop :=
  s.createCalls ≤ 1
  ∧ (s.statusBarItem.isSome = true ↔ s.createCalls = 1)
  ∧ (s.activeExtensions.card = 0 → ∀ item, s.statusBarItem = some item → item.visible = false)
  ∧ (0 < s.activeExtensions.card → s.statusBarItem.isSome = true)

/-- Run a sequence of `setOutputChannel` calls, each given by the outcome of
its possible `registerCommand` attempt and the channel it passes. -/
def runSetChannel (l : List (Bool × String)) (s : SharedState) : SharedState :=
  l.foldl (fun t p => setOutputChannel p.1 p.2 t) s

/-! Helper lemmas shared by the claim theorems. -/

theorem showStatusBar_activeExtensions (env : HostEnv) (s : SharedState) :
    (showStatusBar env s).activeExtensions = s.activeExtensions := by
  unfold showStatusBar
  repeat' split
  all_goals rfl

theorem updateStatusBar_activeExtensions (env : HostEnv) (s : SharedState) :
    (updateStatusBar env s).activeExtensions = s.activeExtensions := by
  unfold updateStatusBar
  dsimp only
  repeat' split
  all_goals first
    | rfl
    | rw [showStatusBar_activeExtensions]

theorem internalRegister_activeExtensions (env : HostEnv) (id : String) (s : SharedState) :
    (internalRegister env id s).activeExtensions = insert id s.activeExtensions := by
  unfold internalRegister
  dsimp only
  repeat' split
  all_goals first
    | rfl
    | rw [updateStatusBar_activeExtensions]

theorem internalUnregister_activeExtensions (env : HostEnv) (id : String) (s : SharedState) :
    (internalUnregister env id s).activeExtensions = s.activeExtensions.erase id := by
  unfold internalUnregister
  dsimp only
  split
  · repeat' split
    all_goals rw [updateStatusBar_activeExtensions]
  · rename_i h
    exact (Finset.erase_eq_of_not_mem h).symm

theorem internalRegister_mem_eq (env : HostEnv) (id : String) (s : SharedState)
    (h : id ∈ s.activeExtensions) : internalRegister env id s = s := by
  have hins : insert id s.activeExtensions = s.activeExtensions :=
    Finset.insert_eq_self.mpr h
  have hcard : s.activeExtensions.card ≠ 0 := Finset.card_ne_zero_of_mem h
  unfold internalRegister
  dsimp only
  rw [hins]
  simp [hcard]

theorem internalUnregister_not_mem_eq (env : HostEnv) (id : String) (s : SharedState)
    (h : id ∉ s.activeExtensions) : internalUnregister env id s = s := by
  unfold internalUnregister
  simp [h]

theorem decide_mem_insert (i id : String) (t : Finset String) :
    decide (id ∈ insert i t) = (if i = id then true else decide (id ∈ t)) := by
  by_cases hi : i = id <;> simp [hi, Finset.mem_insert, eq_comm]

theorem decide_mem_erase (i id : String) (t : Finset String) :
    decide (id ∈ t.erase i) = (if i = id then false else decide (id ∈ t)) := by
  by_cases hi : i = id <;> simp [hi, Finset.mem_erase, eq_comm]

theorem mem_runEvents_iff (l : List (HostEnv × RegEvent)) (s : SharedState) (id : String) :
    (id ∈ (runEvents s l).activeExtensions) ↔
      activeFrom (decide (id ∈ s.activeExtensions)) (l.map Prod.snd) id = true := by
  induction l generalizing s with
  | nil => simp [runEvents, activeFrom]
  | cons p l ih =>
      obtain ⟨env, e⟩ := p
      cases e with
      | reg i =>
          have h1 : runEvents s ((env, RegEvent.reg i) :: l)
              = runEvents (internalRegister env i s) l := rfl
          rw [h1, ih]
          have h2 : decide (id ∈ (internalRegister env i s).activeExtensions)
              = activeStep id (decide (id ∈ s.activeExtensions)) (RegEvent.reg i) := by
            rw [internalRegister_activeExtensions, decide_mem_insert]
            rfl
          rw [h2]
          rfl
      | unreg i =>
          have h1 : runEvents s ((env, RegEvent.unreg i) :: l)
              = runEvents (internalUnregister env i s) l := rfl
          rw [h1, ih]
          have h2 : decide (id ∈ (internalUnregister env i s).activeExtensions)
              = activeStep id (decide (id ∈ s.activeExtensions)) (RegEvent.unreg i) := by
            rw [internalUnregister_activeExtensions, decide_mem_erase]
            rfl
          rw [h2]
          rfl

theorem activeFrom_true (l : List RegEvent) (b : Bool) (id : String)
    (h : activeFrom b l id = true) : b = true ∨ id ∈ l.map eventId := by
  induction l generalizing b with
  | nil => exact Or.inl h
  | cons e l ih =>
      have h' : activeFrom (activeStep id b e) l id = true := h
      rcases ih _ h' with hb | hmem
      · cases e with
        | reg i =>
            by_cases hi : i = id
            · right
              simp [eventId, hi]
            · left
              simpa [activeStep, hi] using hb
        | unreg i =>
            by_cases hi : i = id
            · exfalso
              rw [activeStep] at hb
              simp [hi] at hb
            · left
              simpa [activeStep, hi] using hb
      · right
        simp [hmem]

theorem runEvents_registry (l : List (HostEnv × RegEvent)) :
    (runEvents initialState l).activeExtensions = registeredNotUnregistered (l.map Prod.snd) := by
  ext id
  constructor
  · intro h
    have h1 := (mem_runEvents_iff l initialState id).mp h
    have hact : activeAfter (l.map Prod.snd) id = true := by
      simpa [activeAfter, initialState] using h1
    have hmem : id ∈ (l.map Prod.snd).map eventId := by
      rcases activeFrom_true _ _ _ hact with hfalse | hmem
      · cases hfalse
      · exact hmem
    refine Finset.mem_filter.mpr ⟨?_, hact⟩
    simpa [mentionedIds, List.mem_toFinset] using hmem
  · intro h
    obtain ⟨-, hact⟩ := Finset.mem_filter.mp h
    exact (mem_runEvents_iff l initialState id).mpr
      (by simpa [activeAfter, initialState] using hact)

theorem showStatusBar_isSome (env : HostEnv) (s : SharedState) :
    (showStatusBar env s).statusBarItem.isSome = s.statusBarItem.isSome := by
  unfold showStatusBar
  repeat' split
  all_goals simp_all

theorem showStatusBar_createCalls (env : HostEnv) (s : SharedState) :
    (showStatusBar env s).createCalls = s.createCalls := by
  unfold showStatusBar
  repeat' split
  all_goals rfl

theorem showStatusBar_commandDisposable (env : HostEnv) (s : SharedState) :
    (showStatusBar env s).commandDisposable = s.commandDisposable := by
  unfold showStatusBar
  repeat' split
  all_goals rfl

theorem showStatusBar_registerCommandDisposable (env : HostEnv) (s : SharedState) :
    (showStatusBar env s).registerCommandDisposable = s.registerCommandDisposable := by
  unfold showStatusBar
  repeat' split
  all_goals rfl

theorem showStatusBar_unregisterCommandDisposable (env : HostEnv) (s : SharedState) :
    (showStatusBar env s).unregisterCommandDisposable = s.unregisterCommandDisposable := by
  unfold showStatusBar
  repeat' split
  all_goals rfl

theorem updateStatusBar_commandDisposable (env : HostEnv) (s : SharedState) :
    (updateStatusBar env s).commandDisposable = s.commandDisposable := by
  unfold updateStatusBar
  dsimp only
  repeat' split
  all_goals first
    | rfl
    | rw [showStatusBar_commandDisposable]

theorem updateStatusBar_registerCommandDisposable (env : HostEnv) (s : SharedState) :
    (updateStatusBar env s).registerCommandDisposable = s.registerCommandDisposable := by
  unfold updateStatusBar
  dsimp only
  repeat' split
  all_goals first
    | rfl
    | rw [showStatusBar_registerCommandDisposable]

theorem updateStatusBar_unregisterCommandDisposable (env : HostEnv) (s : SharedState) :
    (updateStatusBar env s).unregisterCommandDisposable = s.unregisterCommandDisposable := by
  unfold updateStatusBar
  dsimp only
  repeat' split
  all_goals first
    | rfl
    | rw [showStatusBar_unregisterCommandDisposable]

theorem updateStatusBar_empty (env : HostEnv) (s : SharedState)
    (h : s.activeExtensions.card = 0) (hh : env.hideThrows = false) :
    (updateStatusBar env s).statusBarItem
      = s.statusBarItem.map (fun it => { it with visible := false })
    ∧ (updateStatusBar env s).createCalls = s.createCalls := by
  unfold updateStatusBar
  dsimp only
  rw [if_pos h]
  cases hx : s.statusBarItem with
  | some item => simp [hh]
  | none => simp

theorem updateStatusBar_ff_pos (s : SharedState) (h : s.activeExtensions.card ≠ 0) :
    (updateStatusBar faultFree s).statusBarItem.isSome = true
    ∧ (updateStatusBar faultFree s).createCalls
        = s.createCalls + (if s.statusBarItem.isSome = true then 0 else 1) := by
  unfold updateStatusBar
  dsimp only
  rw [if_neg h]
  cases hx : s.statusBarItem with
  | some item =>
      rw [showStatusBar_isSome, showStatusBar_createCalls]
      simp [hx]
  | none =>
      simp only [faultFree]
      rw [showStatusBar_isSome, showStatusBar_createCalls]
      simp [hx]

theorem internalRegister_ff_not_mem (id : String) (s : SharedState)
    (h : id ∉ s.activeExtensions) :
    (internalRegister faultFree id s).statusBarItem.isSome = true
    ∧ (internalRegister faultFree id s).createCalls
        = s.createCalls + (if s.statusBarItem.isSome = true then 0 else 1) := by
  have hcard : (insert id s.activeExtensions).card = s.activeExtensions.card + 1 :=
    Finset.card_insert_of_not_mem h
  unfold internalRegister
  dsimp only
  rw [if_pos (by rw [hcard]; exact Nat.succ_ne_self _)]
  split
  · rw [if_neg (by simp [faultFree])]
    cases hx : s.statusBarItem with
    | some item =>
        have := updateStatusBar_ff_pos
          { s with activeExtensions := insert id s.activeExtensions,
                   commandDisposable := true,
                   statusBarItem := some { item with command := some "mcp-acs.showMenu" } }
          (by dsimp only; rw [hcard]; exact Nat.succ_ne_zero _)
        simpa [hx] using this
    | none =>
        have := updateStatusBar_ff_pos
          { s with activeExtensions := insert id s.activeExtensions,
                   commandDisposable := true }
          (by dsimp only; rw [hcard]; exact Nat.succ_ne_zero _)
        simpa [hx] using this
  · have := updateStatusBar_ff_pos
      { s with activeExtensions := insert id s.activeExtensions }
      (by dsimp only; rw [hcard]; exact Nat.succ_ne_zero _)
    simpa using this

theorem internalUnregister_ff_mem_empty (id : String) (s : SharedState)
    (hmem : id ∈ s.activeExtensions) (hcard : (s.activeExtensions.erase id).card = 0) :
    (internalUnregister faultFree id s).statusBarItem
      = s.statusBarItem.map (fun it => { it with visible := false })
    ∧ (internalUnregister faultFree id s).createCalls = s.createCalls
    ∧ (internalUnregister faultFree id s).commandDisposable = false
    ∧ (internalUnregister faultFree id s).registerCommandDisposable = false
    ∧ (internalUnregister faultFree id s).unregisterCommandDisposable = false
    ∧ (internalUnregister faultFree id s).activeExtensions = ∅ := by
  have hempty : s.activeExtensions.erase id = ∅ := Finset.card_eq_zero.mp hcard
  unfold internalUnregister
  rw [if_pos hmem]
  dsimp only
  repeat' split
  all_goals
    simp_all [updateStatusBar_empty, updateStatusBar_commandDisposable,
      updateStatusBar_registerCommandDisposable, updateStatusBar_unregisterCommandDisposable,
      updateStatusBar_activeExtensions, faultFree]

theorem internalUnregister_ff_mem_pos (id : String) (s : SharedState)
    (hmem : id ∈ s.activeExtensions) (hcard : (s.activeExtensions.erase id).card ≠ 0)
    (hsome : s.statusBarItem.isSome = true) :
    (internalUnregister faultFree id s).statusBarItem.isSome = true
    ∧ (internalUnregister faultFree id s).createCalls = s.createCalls := by
  unfold internalUnregister
  rw [if_pos hmem]
  dsimp only
  repeat' split
  all_goals
    first
    | (exfalso; simp_all; done)
    | (have hupd := updateStatusBar_ff_pos
        { s with activeExtensions := s.activeExtensions.erase id } (by dsimp only; exact hcard)
       simpa [hsome] using hupd)

theorem indicatorInv_initial : IndicatorInv initialState := by
  refine ⟨by decide, by decide, ?_, by decide⟩
  intro _ item hi
  rw [show initialState.statusBarItem = none from rfl] at hi
  cases hi

theorem createCalls_eq_of_inv (s : SharedState) (h1 : s.createCalls ≤ 1)
    (h2 : s.statusBarItem.isSome = true ↔ s.createCalls = 1) :
    s.createCalls = (if s.statusBarItem.isSome = true then 1 else 0) := by
  by_cases hb : s.statusBarItem.isSome = true
  · rw [if_pos hb]
    exact h2.mp hb
  · rw [if_neg hb]
    have hne : s.createCalls ≠ 1 := fun hc => hb (h2.mpr hc)
    omega

theorem indicatorInv_applyEventFF (s : SharedState) (e : RegEvent) (hs : IndicatorInv s) :
    IndicatorInv (applyEventFF s e) := by
  obtain ⟨h1, h2, h3, h4⟩ := hs
  have hcs := createCalls_eq_of_inv s h1 h2
  cases e with
  | reg i =>
      show IndicatorInv (internalRegister faultFree i s)
      by_cases hmem : i ∈ s.activeExtensions
      · rw [internalRegister_mem_eq _ _ _ hmem]
        exact ⟨h1, h2, h3, h4⟩
      · obtain ⟨hsome, hcc⟩ := internalRegister_ff_not_mem i s hmem
        have hacts := internalRegister_activeExtensions faultFree i s
        have hpos : 0 < (internalRegister faultFree i s).activeExtensions.card := by
          rw [hacts]
          exact Finset.card_pos.mpr ⟨i, Finset.mem_insert_self i _⟩
        have ht1 : (internalRegister faultFree i s).createCalls = 1 := by
          rw [hcc, hcs]
          by_cases hb : s.statusBarItem.isSome = true <;> simp [hb]
        refine ⟨by omega, by rw [ht1]; simp [hsome], ?_, fun _ => hsome⟩
        intro hc0
        omega
  | unreg i =>
      show IndicatorInv (internalUnregister faultFree i s)
      by_cases hmem : i ∈ s.activeExtensions
      · have hacts := internalUnregister_activeExtensions faultFree i s
        by_cases hc0 : (s.activeExtensions.erase i).card = 0
        · obtain ⟨hitem, hcc, hcmd, hreg, hunreg, hempty⟩ :=
            internalUnregister_ff_mem_empty i s hmem hc0
          refine ⟨by rw [hcc]; exact h1, ?_, ?_, ?_⟩
          · rw [hcc, hitem]
            cases hx : s.statusBarItem with
            | none => simpa [hx] using h2
            | some it => simpa [hx] using h2
          · intro _ item hitem2
            rw [hitem] at hitem2
            cases hx : s.statusBarItem with
            | none => rw [hx] at hitem2; cases hitem2
            | some it0 =>
                rw [hx] at hitem2
                injection hitem2 with hh
                rw [← hh]
          · intro hposc
            exfalso
            rw [hempty] at hposc
            simp at hposc
        · have hpos0 : 0 < s.activeExtensions.card := Finset.card_pos.mpr ⟨i, hmem⟩
          have hsome := h4 hpos0
          obtain ⟨hsome', hcc⟩ := internalUnregister_ff_mem_pos i s hmem hc0 hsome
          refine ⟨by rw [hcc]; exact h1, ?_, ?_, fun _ => hsome'⟩
          · rw [hcc, hsome']
            simpa [hsome] using h2
          · intro hzero
            exfalso
            rw [hacts] at hzero
            exact hc0 hzero
      · rw [internalUnregister_not_mem_eq _ _ _ hmem]
        exact ⟨h1, h2, h3, h4⟩

theorem indicatorInv_foldl (l : List RegEvent) (s : SharedState) (hs : IndicatorInv s) :
    IndicatorInv (l.foldl applyEventFF s) := by
  induction l generalizing s with
  | nil => exact hs
  | cons e l ih => exact ih _ (indicatorInv_applyEventFF s e hs)

theorem internalRegister_ff_isSome (i : String) (s : SharedState) (hs : IndicatorInv s) :
    (internalRegister faultFree i s).statusBarItem.isSome = true := by
  obtain ⟨h1, h2, h3, h4⟩ := hs
  by_cases hmem : i ∈ s.activeExtensions
  · rw [internalRegister_mem_eq _ _ _ hmem]
    exact h4 (Finset.card_pos.mpr ⟨i, hmem⟩)
  · exact (internalRegister_ff_not_mem i s hmem).1

theorem internalUnregister_ff_isSome (i : String) (s : SharedState) (hs : IndicatorInv s) :
    (internalUnregister faultFree i s).statusBarItem.isSome = s.statusBarItem.isSome := by
  obtain ⟨h1, h2, h3, h4⟩ := hs
  by_cases hmem : i ∈ s.activeExtensions
  · by_cases hc0 : (s.activeExtensions.erase i).card = 0
    · obtain ⟨hitem, -, -, -, -, -⟩ := internalUnregister_ff_mem_empty i s hmem hc0
      rw [hitem]
      cases hx : s.statusBarItem <;> simp [hx]
    · have hsome := h4 (Finset.card_pos.mpr ⟨i, hmem⟩)
      obtain ⟨hsome', -⟩ := internalUnregister_ff_mem_pos i s hmem hc0 hsome
      rw [hsome', hsome]
  · rw [internalUnregister_not_mem_eq _ _ _ hmem]

theorem foldl_isSome_iff (l : List RegEvent) (s : SharedState) (hs : IndicatorInv s) :
    ((l.foldl applyEventFF s).statusBarItem.isSome = true) ↔
      (s.statusBarItem.isSome = true ∨ ∃ i, RegEvent.reg i ∈ l) := by
  induction l generalizing s with
  | nil => simp
  | cons e l ih =>
      rw [List.foldl_cons, ih _ (indicatorInv_applyEventFF s e hs)]
      cases e with
      | reg i =>
          constructor
          · intro _
            exact Or.inr ⟨i, List.mem_cons_self _ _⟩
          · intro _
            exact Or.inl (internalRegister_ff_isSome i s hs)
      | unreg i =>
          rw [show applyEventFF s (RegEvent.unreg i) = internalUnregister faultFree i s from rfl,
              internalUnregister_ff_isSome i s hs]
          constructor
          · rintro (h | ⟨j, hj⟩)
            · exact Or.inl h
            · exact Or.inr ⟨j, List.mem_cons_of_mem _ hj⟩
          · rintro (h | ⟨j, hj⟩)
            · exact Or.inl h
            · rcases List.mem_cons.mp hj with hj1 | hj2
              · cases hj1
              · exact Or.inr ⟨j, hj2⟩

theorem registerUnregisterEndpoint_activeExtensions (env : RegisterEnv) (s : SharedState) :
    (registerUnregisterEndpoint env s).activeExtensions = s.activeExtensions := by
  unfold registerUnregisterEndpoint
  repeat' split
  all_goals rfl

theorem registerExtension_activeExtensions (env : RegisterEnv) (id : String) (s : SharedState)
    (h : env.ownerInvokeSucceeds = false) :
    (registerExtension env id s).activeExtensions = insert id s.activeExtensions := by
  unfold registerExtension
  rw [h]
  simp only [Bool.false_eq_true, if_false]
  repeat' split
  all_goals
    simp [registerUnregisterEndpoint_activeExtensions, internalRegister_activeExtensions]

theorem dispose_clears (env : DisposeEnv) (s : SharedState) :
    (dispose env s).activeExtensions = ∅
    ∧ (dispose env s).lastError = none
    ∧ (dispose env s).outputChannel = none
    ∧ (dispose env s).registerCommandDisposable = s.registerCommandDisposable
    ∧ (dispose env s).unregisterCommandDisposable = s.unregisterCommandDisposable := by
  unfold dispose
  dsimp only
  repeat' split
  all_goals exact ⟨rfl, rfl, rfl, rfl, rfl⟩

theorem dispose_isolation (env : DisposeEnv) (s : SharedState) :
    (env.disposeShowMenuThrows = false → (dispose env s).commandDisposable = false)
    ∧ (env.disposeDiagnosticThrows = false → (dispose env s).diagnosticCommandDisposable = false)
    ∧ (env.disposeStatusBarThrows = false → (dispose env s).statusBarItem = none) := by
  unfold dispose
  dsimp only
  repeat' split
  all_goals
    refine ⟨fun ha => ?_, fun hb => ?_, fun hc => ?_⟩ <;> simp_all

theorem dispose_dispose (env2 : DisposeEnv) (s : SharedState) :
    dispose env2 (dispose faultFreeDispose s) = dispose faultFreeDispose s := by
  unfold dispose
  dsimp only
  simp [faultFreeDispose]

theorem setOutputChannel_isSome_eq (b : Bool) (ch : String) (s : SharedState)
    (h : s.outputChannel.isSome = true) : setOutputChannel b ch s = s := by
  unfold setOutputChannel
  rw [if_pos h]

theorem runSetChannel_isSome_eq (l : List (Bool × String)) (s : SharedState)
    (h : s.outputChannel.isSome = true) : runSetChannel l s = s := by
  induction l with
  | nil => rfl
  | cons p l ih =>
      show runSetChannel l (setOutputChannel p.1 p.2 s) = s
      rw [setOutputChannel_isSome_eq p.1 p.2 s h]
      exact ih

theorem setOutputChannel_from_none (b : Bool) (ch : String) (s : SharedState)
    (h : s.outputChannel = none) :
    (setOutputChannel b ch s).outputChannel = some ch
    ∧ (setOutputChannel b ch s).diagRegisterAttempts
        = s.diagRegisterAttempts + (if s.diagnosticCommandDisposable = true then 0 else 1)
    ∧ (b = false → s.diagnosticCommandDisposable = false →
        (setOutputChannel b ch s).diagnosticCommandDisposable = true) := by
  unfold setOutputChannel
  rw [h]
  dsimp only
  repeat' split
  all_goals simp_all

/-- C1: on the self-promotion path of `registerExtension` (the initial
forwarding invoke failed), the local registry mutation runs before the relay
endpoint registrations, so the id is in the local registry after the call
completes for every outcome of the endpoint registrations and of the one-shot
retry — no id is silently dropped. -/
theorem registerExtension_self_promotion_retains_id (env : RegisterEnv) (id : String)
    (s : SharedState) (h : env.ownerInvokeSucceeds = false) :
    id ∈ (registerExtension env id s).activeExtensions := by
  rw [registerExtension_activeExtensions env id s h]
  exact Finset.mem_insert_self id _

/-- Witness for C1 at a concrete self-promoting registration. -/
theorem registerExtension_self_promotion_retains_id_witness :
    ownerEnv.ownerInvokeSucceeds = false
    ∧ "ext-a" ∈ (registerExtension ownerEnv "ext-a" initialState).activeExtensions :=
  ⟨rfl, registerExtension_self_promotion_retains_id ownerEnv "ext-a" initialState rfl⟩

/-- C2: for any finite sequence of `internalRegister`/`internalUnregister`
calls on the initially empty registry, under any host outcomes, the final
member set equals the set of distinct identifiers registered and not
subsequently unregistered, and the cardinality agrees. -/
theorem runEvents_cardinality_and_membership (l : List (HostEnv × RegEvent)) :
    (runEvents initialState l).activeExtensions = registeredNotUnregistered (l.map Prod.snd)
    ∧ (runEvents initialState l).activeExtensions.card
        = (registeredNotUnregistered (l.map Prod.snd)).card :=
  ⟨runEvents_registry l, by rw [runEvents_registry l]⟩

/-- Witness for C2 at a concrete event sequence. -/
theorem runEvents_cardinality_and_membership_witness :
    (runEvents initialState
        [(faultFree, RegEvent.reg "a"), (faultFree, RegEvent.unreg "a"),
         (faultFree, RegEvent.reg "b")]).activeExtensions
      = registeredNotUnregistered
          [RegEvent.reg "a", RegEvent.unreg "a", RegEvent.reg "b"] :=
  (runEvents_cardinality_and_membership
    [(faultFree, RegEvent.reg "a"), (faultFree, RegEvent.unreg "a"),
     (faultFree, RegEvent.reg "b")]).1

/-- C3 counterexample: at the concrete reachable owner state, unregistering
the last client DOES dispose both relay endpoint registrations, contradicting
the claim that they are never released when the registry empties. -/
theorem internalUnregister_empty_releases_endpoints_cex :
    ownerState.registerCommandDisposable = true
    ∧ ownerState.unregisterCommandDisposable = true
    ∧ (internalUnregister faultFree "ext-a" ownerState).registerCommandDisposable = false
    ∧ (internalUnregister faultFree "ext-a" ownerState).unregisterCommandDisposable = false := by
  decide

/-- C3 (amended): when an unregistration empties the registry and the host
disposals succeed, the show-menu command and BOTH relay endpoints are disposed
and cleared; the indicator itself is only hidden, never destroyed. -/
theorem internalUnregister_empty_releases_endpoints (id : String) (s : SharedState)
    (hmem : id ∈ s.activeExtensions) (hcard : s.activeExtensions.card = 1) :
    (internalUnregister faultFree id s).commandDisposable = false
    ∧ (internalUnregister faultFree id s).registerCommandDisposable = false
    ∧ (internalUnregister faultFree id s).unregisterCommandDisposable = false
    ∧ (internalUnregister faultFree id s).statusBarItem
        = s.statusBarItem.map (fun it => { it with visible := false })
    ∧ (internalUnregister faultFree id s).activeExtensions = ∅ := by
  have hc0 : (s.activeExtensions.erase id).card = 0 := by
    rw [Finset.card_erase_of_mem hmem, hcard]
  obtain ⟨hitem, hcc, hcmd, hreg, hunreg, hempty⟩ :=
    internalUnregister_ff_mem_empty id s hmem hc0
  exact ⟨hcmd, hreg, hunreg, hitem, hempty⟩

/-- Witness for the amended C3 at the concrete owner state. -/
theorem internalUnregister_empty_releases_endpoints_witness :
    ("ext-a" ∈ ownerState.activeExtensions ∧ ownerState.activeExtensions.card = 1)
    ∧ (internalUnregister faultFree "ext-a" ownerState).registerCommandDisposable = false :=
  ⟨⟨by decide, by decide⟩,
   (internalUnregister_empty_releases_endpoints "ext-a" ownerState
      (by decide) (by decide)).2.1⟩

/-- C4 counterexample: at the concrete reachable owner state, `dispose()`
leaves both relay endpoint registrations held, contradicting the claim that
dispose releases and clears them. -/
theorem dispose_retains_relay_endpoints_cex :
    ownerState.registerCommandDisposable = true
    ∧ ownerState.unregisterCommandDisposable = true
    ∧ (dispose faultFreeDispose ownerState).registerCommandDisposable = true
    ∧ (dispose faultFreeDispose ownerState).unregisterCommandDisposable = true := by
  decide

/-- C4 (amended): `dispose()` never touches the relay endpoint registrations —
they survive with their previous values — while it does clear the registry,
the last-error state and the output channel, and tears down the indicator
when that disposal does not throw. -/
theorem dispose_retains_relay_endpoints (env : DisposeEnv) (s : SharedState) :
    (dispose env s).registerCommandDisposable = s.registerCommandDisposable
    ∧ (dispose env s).unregisterCommandDisposable = s.unregisterCommandDisposable
    ∧ (dispose env s).activeExtensions = ∅
    ∧ (dispose env s).lastError = none
    ∧ (dispose env s).outputChannel = none
    ∧ (env.disposeStatusBarThrows = false → (dispose env s).statusBarItem = none) := by
  obtain ⟨ha, hb, hc, hd, he⟩ := dispose_clears env s
  obtain ⟨-, -, hf⟩ := dispose_isolation env s
  exact ⟨hd, he, ha, hb, hc, hf⟩

/-- Witness for the amended C4 at the concrete owner state. -/
theorem dispose_retains_relay_endpoints_witness :
    (dispose faultFreeDispose ownerState).registerCommandDisposable
      = ownerState.registerCommandDisposable
    ∧ (dispose faultFreeDispose ownerState).statusBarItem = none :=
  ⟨(dispose_retains_relay_endpoints faultFreeDispose ownerState).1,
   (dispose_retains_relay_endpoints faultFreeDispose ownerState).2.2.2.2.2 rfl⟩

/-- C5: across any fault-free register/unregister event sequence from the
initial state, the indicator-creation capability is invoked at most once; the
item exists exactly when some registration event occurred (it is created
lazily on the first empty-to-non-empty transition, reused afterwards, and
never destroyed by events); and whenever the registry is empty the item, if
it exists, is hidden. -/
theorem indicator_singleton_invariant (l : List RegEvent) :
    (runEventsFF l).createCalls ≤ 1
    ∧ ((runEventsFF l).statusBarItem.isSome = true ↔ ∃ i, RegEvent.reg i ∈ l)
    ∧ ((runEventsFF l).activeExtensions.card = 0 →
        ∀ item, (runEventsFF l).statusBarItem = some item → item.visible = false) := by
  obtain ⟨h1, h2, h3, h4⟩ := indicatorInv_foldl l initialState indicatorInv_initial
  refine ⟨h1, ?_, h3⟩
  have hiff := foldl_isSome_iff l initialState indicatorInv_initial
  show (l.foldl applyEventFF initialState).statusBarItem.isSome = true ↔ ∃ i, RegEvent.reg i ∈ l
  rw [hiff]
  simp [initialState]

/-- Witness for C5 at a concrete event sequence. -/
theorem indicator_singleton_invariant_witness :
    (runEventsFF [RegEvent.reg "a", RegEvent.reg "b", RegEvent.unreg "a"]).createCalls ≤ 1 :=
  (indicator_singleton_invariant [RegEvent.reg "a", RegEvent.reg "b", RegEvent.unreg "a"]).1

/-- C6: registering the same identifier N times (N ≥ 1), under any host
outcomes, leaves the state exactly as registering it once; and a registration
of an already-registered id is a complete no-op — in particular the registry,
its cardinality and the `updateCalls` counter (no `updateStatusBar` call) are
unchanged. -/
theorem internalRegister_idempotent (env : HostEnv) (id : String) (s : SharedState)
    (n : Nat) (h : 1 ≤ n) :
    (internalRegister env id)^[n] s = internalRegister env id s
    ∧ (∀ t : SharedState, id ∈ t.activeExtensions → internalRegister env id t = t) := by
  refine ⟨?_, fun t ht => internalRegister_mem_eq env id t ht⟩
  induction n with
  | zero => cases h
  | succ m ih =>
      rcases Nat.eq_zero_or_pos m with hm | hm
      · subst hm
        rfl
      · rw [Function.iterate_succ_apply', ih hm]
        exact internalRegister_mem_eq env id _
          (by rw [internalRegister_activeExtensions]; exact Finset.mem_insert_self _ _)

/-- Witness for C6: registering twice equals registering once at a concrete
input. -/
theorem internalRegister_idempotent_witness :
    1 ≤ 2
    ∧ (internalRegister faultFree "ext-a")^[2] initialState
        = internalRegister faultFree "ext-a" initialState :=
  ⟨by decide,
   (internalRegister_idempotent faultFree "ext-a" initialState 2 (by decide)).1⟩

/-- C7: unregistering an identifier not in the registry is a complete no-op
for both `internalUnregister` and `unregisterExtension`: the state — registry
membership and cardinality, indicator existence/visibility/text/tooltip —
is returned unchanged, and no exception escapes (the embedding is total). -/
theorem internalUnregister_unknown_id_noop (env : HostEnv) (uenv : UnregisterEnv)
    (id : String) (s : SharedState) (h : id ∉ s.activeExtensions) :
    internalUnregister env id s = s ∧ unregisterExtension uenv id s = s := by
  refine ⟨internalUnregister_not_mem_eq env id s h, ?_⟩
  unfold unregisterExtension
  split
  · rfl
  · exact internalUnregister_not_mem_eq _ id s h

/-- Witness for C7 at a concrete unknown id. -/
theorem internalUnregister_unknown_id_noop_witness :
    "ghost" ∉ ownerState.activeExtensions
    ∧ internalUnregister faultFree "ghost" ownerState = ownerState :=
  ⟨by decide,
   (internalUnregister_unknown_id_noop faultFree
      { ownerInvokeSucceeds := false, host := faultFree } "ghost" ownerState (by decide)).1⟩

/-- C8: `dispose()` is idempotent — after a successful dispose, a second
dispose under any outcomes returns the state unchanged and leaves cardinality
at 0 — and its sub-disposals are isolated: whatever throws, the registry,
last-error and output-channel clearing executes, and each sub-disposal whose
own host call does not throw completes. -/
theorem dispose_idempotent_and_isolated (env env2 : DisposeEnv) (s : SharedState) :
    dispose env2 (dispose faultFreeDispose s) = dispose faultFreeDispose s
    ∧ (dispose faultFreeDispose s).activeExtensions.card = 0
    ∧ (dispose env s).activeExtensions = ∅
    ∧ (dispose env s).lastError = none
    ∧ (dispose env s).outputChannel = none
    ∧ (env.disposeShowMenuThrows = false → (dispose env s).commandDisposable = false)
    ∧ (env.disposeDiagnosticThrows = false → (dispose env s).diagnosticCommandDisposable = false)
    ∧ (env.disposeStatusBarThrows = false → (dispose env s).statusBarItem = none) := by
  obtain ⟨ha, hb, hc, -, -⟩ := dispose_clears env s
  obtain ⟨h1, h2, h3⟩ := dispose_isolation env s
  refine ⟨dispose_dispose env2 s, ?_, ha, hb, hc, h1, h2, h3⟩
  rw [(dispose_clears faultFreeDispose s).1]
  simp

/-- Witness for C8 at the concrete owner state. -/
theorem dispose_idempotent_and_isolated_witness :
    dispose faultFreeDispose (dispose faultFreeDispose ownerState)
      = dispose faultFreeDispose ownerState
    ∧ (dispose faultFreeDispose ownerState).statusBarItem = none :=
  ⟨(dispose_idempotent_and_isolated faultFreeDispose faultFreeDispose ownerState).1,
   (dispose_idempotent_and_isolated faultFreeDispose faultFreeDispose
      ownerState).2.2.2.2.2.2.2 rfl⟩

/-- C9: across any sequence of `setOutputChannel` calls from the initial
state, the first caller's channel is installed and kept, the diagnostics
endpoint `registerCommand` is attempted exactly once (succeeding when it does
not throw), and every call on a state with an installed sink is a no-op. -/
theorem setOutputChannel_first_caller_wins (l : List (Bool × String)) (b : Bool) (ch : String) :
    (runSetChannel ((b, ch) :: l) initialState).outputChannel = some ch
    ∧ (runSetChannel ((b, ch) :: l) initialState).diagRegisterAttempts = 1
    ∧ (b = false → (runSetChannel ((b, ch) :: l) initialState).diagnosticCommandDisposable = true)
    ∧ (∀ (b2 : Bool) (ch2 : String) (t : SharedState),
        t.outputChannel.isSome = true → setOutputChannel b2 ch2 t = t) := by
  obtain ⟨hch, hattempts, hdiag⟩ := setOutputChannel_from_none b ch initialState rfl
  have hrun : runSetChannel ((b, ch) :: l) initialState
      = runSetChannel l (setOutputChannel b ch initialState) := rfl
  have hrest : runSetChannel l (setOutputChannel b ch initialState)
      = setOutputChannel b ch initialState :=
    runSetChannel_isSome_eq l _ (by rw [hch]; rfl)
  rw [hrun, hrest]
  refine ⟨hch, ?_, fun hb => hdiag hb rfl,
    fun b2 ch2 t ht => setOutputChannel_isSome_eq b2 ch2 t ht⟩
  rw [hattempts]
  simp [initialState]

/-- Witness for C9 at a concrete call sequence. -/
theorem setOutputChannel_first_caller_wins_witness :
    (runSetChannel [(false, "chan-a"), (true, "chan-b")] initialState).outputChannel
      = some "chan-a" :=
  (setOutputChannel_first_caller_wins [(true, "chan-b")] false "chan-a").1

/-- C10: `getDiagnosticInfo` reports `statusBarVisible` as true exactly when
the item exists and the registry is non-empty — derived from cardinality, not
from the host's shown/hidden state — so at the concrete state where `show()`
threw, the report says visible while the host item was never shown. -/
theorem getDiagnosticInfo_visibility_from_registry (s : SharedState) :
    ((getDiagnosticInfo s).statusBarVisible = true ↔
      (s.statusBarItem.isSome = true ∧ 0 < s.activeExtensions.card))
    ∧ (getDiagnosticInfo showFailState).statusBarVisible = true
    ∧ showFailState.statusBarItem.map StatusBarItem.visible = some false := by
  refine ⟨?_, by decide, by decide⟩
  unfold getDiagnosticInfo
  dsimp only
  rw [Bool.and_eq_true]
  simp

/-- Witness for C10 at the concrete owner state. -/
theorem getDiagnosticInfo_visibility_from_registry_witness :
    (getDiagnosticInfo ownerState).statusBarVisible = true :=
  (getDiagnosticInfo_visibility_from_registry ownerState).1.mpr ⟨by decide, by decide⟩
